import Mathlib

/-
  Verification development for the Combustible fuel-consumption pipeline
  (src/Combustible_Flex.py).  The pandas pipeline is shallowly embedded:
  DataFrames become lists of records, parsed datetimes become naturals under
  the packing enc y mo d hh mi (base-100 digits, so numeric order coincides
  with chronological order), volumes and hours become rationals, and IEEE
  float division is modelled by an Option that is none exactly when the
  denominator is zero (standing for the inf/NaN a pandas float division
  produces there, which is not the defined business value 0).
-/

namespace Combustible

/-- Calendar timestamps: year, month, day, hour, minute packed in base 100.
Numeric order on the encoding is chronological order for in-range fields. -/
def enc (y mo d hh mi : Nat) : Nat :=
  (((y * 100 + mo) * 100 + d) * 100 + hh) * 100 + mi

/-- A refuel row (Abastecimientos sheet) after date parsing and key
cleaning: integer equipment code, consumption date, volume in gallons. -/
structure Abast where
  codigo : Int
  fecha : Nat
  cantidad : ℚ
deriving DecidableEq

/-- A work-log row (Horas Trabajadas sheet) after date parsing and key
cleaning: integer equipment code, timestamp, duration in hours. -/
structure Hora where
  codigo : Int
  fecha : Nat
  duracion : ℚ
deriving DecidableEq

/-- One row of the result table built by procesar_datos: a consumption
interval between two consecutive refuels of one equipment unit. -/
structure Intervalo where
  codigo : Int
  fechaInicio : Nat
  fechaFin : Nat
  horasTrabajadas : ℚ
  galones : ℚ
  galonesPorHora : ℚ
deriving DecidableEq

/-- Lexicographic order on the (equipment code, date) group keys; the
pandas groupby emits its groups with keys sorted in this order. -/
def claveLe (a b : Int × Nat) : Prop :=
  a.1 < b.1 ∨ (a.1 = b.1 ∧ a.2 ≤ b.2)

instance : DecidableRel claveLe := fun a b => by
  unfold claveLe
  infer_instance

instance : IsTotal (Int × Nat) claveLe :=
  ⟨fun a b => by unfold claveLe; omega⟩

instance : IsTrans (Int × Nat) claveLe :=
  ⟨fun a b c => by unfold claveLe; omega⟩

instance : IsAntisymm (Int × Nat) claveLe :=
  ⟨fun a b h1 h2 => by
    unfold claveLe at h1 h2
    have : a.1 = b.1 ∧ a.2 = b.2 := by omega
    exact Prod.ext this.1 this.2⟩

/-- groupby([key]).agg(sum).reset_index() over (key, value) rows, as in
lines 20-26 of the source: one output row per distinct key, keys sorted
ascending, values summed within each key group. -/
def agregar (rows : List ((Int × Nat) × ℚ)) : List ((Int × Nat) × ℚ) :=
  (((rows.map Prod.fst).dedup).insertionSort claveLe).map
    fun k => (k, ((rows.filter fun r => decide (r.1 = k)).map Prod.snd).sum)

/-- Aggregation of refuels by (Codigo Equipo, Fecha Consumo), summing
Cantidad (source lines 20-22, renamed to Galones at lines 29-31). -/
def agruparAbastecimientos (rows : List Abast) : List Abast :=
  (agregar (rows.map fun r => ((r.codigo, r.fecha), r.cantidad))).map
    fun p => ⟨p.1.1, p.1.2, p.2⟩

/-- Aggregation of work logs by (Codigo Equipo, Fecha), summing
Duracion (source lines 24-26). -/
def agruparHoras (rows : List Hora) : List Hora :=
  (agregar (rows.map fun r => ((r.codigo, r.fecha), r.duracion))).map
    fun p => ⟨p.1.1, p.1.2, p.2⟩

/-- Order on refuel rows used by sort_values(Fecha) (source line 42). -/
def fechaLeA (a b : Abast) : Prop := a.fecha ≤ b.fecha

instance : DecidableRel fechaLeA := fun a b => by
  unfold fechaLeA
  infer_instance

instance : IsTotal Abast fechaLeA :=
  ⟨fun a b => by unfold fechaLeA; omega⟩

instance : IsTrans Abast fechaLeA :=
  ⟨fun a b c => by unfold fechaLeA; omega⟩

/-- datos_abastecimiento for one equipment unit: the aggregated refuel rows
of that unit, sorted by date (source lines 40-42).  On the aggregated
table the dates of one unit are pairwise distinct, so the choice of
sorting algorithm cannot matter; insertion sort stands in for pandas. -/
def datosAbastecimientoDe (abG : List Abast) (e : Int) : List Abast :=
  (abG.filter fun r => decide (r.codigo = e)).insertionSort fechaLeA

/-- datos_horas for one equipment unit (source lines 44-46). -/
def datosHorasDe (hG : List Hora) (e : Int) : List Hora :=
  hG.filter fun h => decide (h.codigo = e)

/-- The inner loop of procesar_datos (source lines 48-66): for each
adjacent pair of refuel rows of one unit, emit one interval whose hours
are the unit's work durations with date in (start, end], whose volume is
the volume of the refuel at the interval start, and whose rate carries
the explicit zero guard of line 65. -/
def intervaloDe (e : Int) (datosH : List Hora) (p : Abast × Abast) : Intervalo :=
  let horasTotal :=
    ((datosH.filter fun h =>
        decide (p.1.fecha < h.fecha) && decide (h.fecha ≤ p.2.fecha)).map
      Hora.duracion).sum
  { codigo := e
    fechaInicio := p.1.fecha
    fechaFin := p.2.fecha
    horasTrabajadas := horasTotal
    galones := p.1.cantidad
    galonesPorHora := if 0 < horasTotal then p.1.cantidad / horasTotal else 0 }

def construirIntervalos (e : Int) (datosAb : List Abast) (datosH : List Hora) :
    List Intervalo :=
  (datosAb.zip datosAb.tail).map (intervaloDe e datosH)

/-- procesar_datos (source lines 18-68): aggregate both inputs, then walk
the equipment units of the refuel table in order of first appearance and
emit the consumption intervals of each. -/
def procesar_datos (abastecimientos : List Abast) (horasTrabajadas : List Hora) :
    List Intervalo :=
  let abG := agruparAbastecimientos abastecimientos
  let hG := agruparHoras horasTrabajadas
  let equipos := (abG.map Abast.codigo).dedup
  equipos.flatMap fun e =>
    construirIntervalos e (datosAbastecimientoDe abG e) (datosHorasDe hG e)

/-- The work hours the pipeline attributes to equipment e over the
half-open-left interval (a, b]: sum of the aggregated durations of e whose
timestamp t satisfies a < t and t ≤ b (source lines 53-56). -/
def horasEnRango (hG : List Hora) (e : Int) (a b : Nat) : ℚ :=
  (((datosHorasDe hG e).filter fun h =>
      decide (a < h.fecha) && decide (h.fecha ≤ b)).map Hora.duracion).sum

/-- Models the IEEE float division pandas performs where the source has no
zero guard: a defined rational when the denominator is nonzero, none when
it is zero — standing for the inf (x/0, x nonzero) or NaN (0/0) a float
division produces, neither of which is the defined business value 0. -/
def divFloat (a b : ℚ) : Option ℚ :=
  if b = 0 then none else some (a / b)

/-- Mes: Fecha Inicio truncated to the first of its month at midnight
(source line 193, dt.to_period then dt.to_timestamp), expressed on the
base-100 timestamp encoding: clear day, hour and minute, set day to 1. -/
def truncMes (f : Nat) : Nat :=
  f / 1000000 * 1000000 + 10000

/-- The percent deviation (source lines 213-214): ((media - historica) /
historica) * 100 with pandas float semantics: an absent operand or a zero
denominator leaves the deviation undefined (NaN/inf), modelled as none. -/
def pctDif (media hist : Option ℚ) : Option ℚ :=
  match media, hist with
  | some m, some h => (divFloat (m - h) h).map fun x => x * 100
  | _, _ => none

/-- The alert test of source line 279: deviation > 10 or < -10.  A pandas
comparison against NaN is false, so an undefined deviation never alerts. -/
def esAlerta (dif : Option ℚ) : Bool :=
  match dif with
  | some x => decide (x > 10) || decide (x < -10)
  | none => false

/-- The nominal test of source line 280: -10 ≤ deviation ≤ 10; false on an
undefined deviation. -/
def esNominal (dif : Option ℚ) : Bool :=
  match dif with
  | some x => decide (-10 ≤ x) && decide (x ≤ 10)
  | none => false

/-- One row of the monthly summary table of source lines 196-214. -/
structure Resumen where
  codigo : Int
  mes : Nat
  galonesTotales : ℚ
  horasTotales : ℚ
  mediaConsumo : Option ℚ
  histRate : Option ℚ
  pctDiferencia : Option ℚ
deriving DecidableEq

/-- The groupby keys of the monthly summary (source line 196): (Codigo
Equipo, Mes) with Mes = truncMes of Fecha Inicio; groupby sorts keys. -/
def clavesMes (ivs : List Intervalo) : List (Int × Nat) :=
  ((ivs.map fun iv =>
    (iv.codigo, truncMes iv.fechaInicio)).dedup).insertionSort claveLe

/-- The monthly summary (source lines 192-214): group intervals by
(equipment, month), sum Galones and Horas Trabajadas, divide the sums with
no zero guard (line 201, hence divFloat), left-join the per-equipment
historical baseline (lines 208-212, assumed functional in the equipment
code after drop_duplicates) and compute the percent deviation. -/
def resumenMensual (ivs : List Intervalo) (hist : Int → Option ℚ) :
    List Resumen :=
  (clavesMes ivs).map fun k =>
    let grupo := ivs.filter fun iv =>
      decide ((iv.codigo, truncMes iv.fechaInicio) = k)
    let gal := (grupo.map Intervalo.galones).sum
    let hor := (grupo.map Intervalo.horasTrabajadas).sum
    let media := divFloat gal hor
    { codigo := k.1
      mes := k.2
      galonesTotales := gal
      horasTotales := hor
      mediaConsumo := media
      histRate := hist k.1
      pctDiferencia := pctDif media (hist k.1) }

/-- The tab-2 date filter (source lines 179-181): keep intervals with
Fecha Inicio at or after the lower bound and Fecha Fin at or before the
upper bound (inclusive bounds). -/
def filtrarFecha (ivs : List Intervalo) (a b : Nat) : List Intervalo :=
  ivs.filter fun iv => decide (a ≤ iv.fechaInicio) && decide (iv.fechaFin ≤ b)

/-- Outcome of the visualization tab: either the no-data warning of source
lines 187-189 (st.warning followed by st.stop) or the monthly summary. -/
inductive VizResultado where
  | sinDatos : VizResultado
  | resumen : List Resumen → VizResultado
deriving DecidableEq

/-- Source lines 178-214 restricted to the date-range filter: apply the
filter, stop with the no-data message when nothing remains, otherwise
build the monthly summary. -/
def tab2Visualizacion (ivs : List Intervalo) (rango : Option (Nat × Nat))
    (hist : Int → Option ℚ) : VizResultado :=
  let f := match rango with
    | some r => filtrarFecha ivs r.1 r.2
    | none => ivs
  if f.isEmpty then VizResultado.sinDatos
  else VizResultado.resumen (resumenMensual f hist)

/-- A refuel row as loaded, before key cleaning: the equipment identifier
is still a free-form token (astype(str) at source line 106). -/
structure AbastCrudo where
  codigo : String
  fecha : Nat
  cantidad : ℚ
deriving DecidableEq

/-- A work-log row as loaded (dtype object on the key, source line 14). -/
structure HoraCruda where
  codigo : String
  fecha : Nat
  duracion : ℚ
deriving DecidableEq

/-- The regex of source line 106 on the string form of the key: one or
more decimal digits and nothing else. -/
def esNumerico (s : String) : Bool :=
  decide (s.toList ≠ []) && s.toList.all Char.isDigit

/-- Base-10 value of a digit list, as int() computes it. -/
def digitosValor (l : List Char) : Nat :=
  l.foldl (fun n c => 10 * n + (c.toNat - 48)) 0

/-- int() on a digit-only string (astype(int) at source line 107, applied
after the digit filter). -/
def digitosAInt (s : String) : Int :=
  (digitosValor s.toList : Int)

/-- Source lines 106-107, the refuel-side key cleaning: silently keep only
rows whose key matches the digit pattern, then convert keys to integers. -/
def limpiarAbastecimientos (rows : List AbastCrudo) : List Abast :=
  (rows.filter fun r => esNumerico r.codigo).map
    fun r => ⟨digitosAInt r.codigo, r.fecha, r.cantidad⟩

/-- Python int(s) as astype(int) applies it elementwise on an object
column: optional sign followed by one or more digits gives the value,
anything else raises ValueError (modelled as none; surrounding whitespace,
which int() would also strip, is not exercised by the claims). -/
def intDeLista (l : List Char) : Option Int :=
  match l with
  | [] => none
  | c :: rest =>
    if c = '-' then
      if (decide (rest ≠ []) && rest.all Char.isDigit) = true then
        some (-(digitosValor rest : Int))
      else none
    else if c = '+' then
      if (decide (rest ≠ []) && rest.all Char.isDigit) = true then
        some ((digitosValor rest : Int))
      else none
    else if (c :: rest).all Char.isDigit then
      some ((digitosValor (c :: rest) : Int))
    else none

def intDeCadena (s : String) : Option Int :=
  intDeLista s.toList

/-- Source line 108, the work-side key cleaning: astype(int) with no prior
digit filter, so a single non-convertible key fails the whole load with a
ValueError instead of dropping the row. -/
def limpiarHoras (rows : List HoraCruda) : Except String (List Hora) :=
  if rows.all fun r => (intDeCadena r.codigo).isSome then
    Except.ok (rows.filterMap fun r =>
      (intDeCadena r.codigo).map fun n => ⟨n, r.fecha, r.duracion⟩)
  else Except.error "ValueError: invalid literal for int"

/-- A classification row as loaded (source lines 117-124): key already an
integer, the baseline still the raw string. -/
structure ClasifCruda where
  equipo3 : Int
  zona : String
  categoria : String
  historica : String
deriving DecidableEq

/-- A classification row after baseline normalization. -/
structure Clasif where
  equipo3 : Int
  zona : String
  categoria : String
  historica : Option ℚ
deriving DecidableEq

/-- str.replace of every space by nothing (source line 130). -/
def quitarEspacios (s : String) : String :=
  String.mk (s.toList.filter fun c => decide (c ≠ ' '))

/-- str.replace of every comma by a period (source line 131). -/
def comaAPunto (s : String) : String :=
  String.mk (s.toList.map fun c => if c = ',' then '.' else c)

/-- pd.to_numeric with errors=coerce (source line 133), restricted to plain
decimal literals: optional sign, an integer part, an optional period and
fractional part, at least one digit overall; anything else coerces to
absent.  Other float spellings pandas accepts (scientific notation, inf)
are not exercised by the claims. -/
def aNumerico (s : String) : Option ℚ :=
  let signo := s.toList
  let neg : Bool := match signo with
    | '-' :: _ => true
    | _ => false
  let l : List Char := match signo with
    | '-' :: rest => rest
    | '+' :: rest => rest
    | rest => rest
  let ent := l.takeWhile Char.isDigit
  let resto := l.drop ent.length
  let frac : Option (List Char) := match resto with
    | [] => some []
    | '.' :: fs => if fs.all Char.isDigit then some fs else none
    | _ => none
  match frac with
  | none => none
  | some fs =>
    if ent = [] ∧ fs = [] then none
    else
      let v : ℚ :=
        ((digitosValor ent * 10 ^ fs.length + digitosValor fs : Nat) : ℚ) /
          ((10 ^ fs.length : Nat) : ℚ)
      some (if neg then -v else v)

/-- Source lines 127-133: the baseline normalization chain. -/
def normalizarHistorica (s : String) : Option ℚ :=
  aNumerico (comaAPunto (quitarEspacios s))

/-- Source lines 127-133 as they act on the classification rows: every row
is kept, only the baseline field is rewritten, unparsable values becoming
absent for that row alone. -/
def procesarClasificacion (rows : List ClasifCruda) : List Clasif :=
  rows.map fun r =>
    ⟨r.equipo3, r.zona, r.categoria, normalizarHistorica r.historica⟩

/-- Example input, the worked example of the spec: unit 101 refuels 50 gal
on 2024-01-01 and 40 gal on 2024-01-15. -/
def abEjemplo : List Abast :=
  [⟨101, enc 2024 1 1 0 0, 50⟩, ⟨101, enc 2024 1 15 0 0, 40⟩]

/-- Example input: three work-log entries of unit 101 inside the refuel
window, 20 hours in total. -/
def hsEjemplo : List Hora :=
  [⟨101, enc 2024 1 3 8 0, 5⟩, ⟨101, enc 2024 1 7 9 30, 10⟩,
   ⟨101, enc 2024 1 10 14 0, 5⟩]

/-- Example baseline lookup: unit 101 has historical rate 2.0. -/
def histEjemplo : Int → Option ℚ :=
  fun e => if e = 101 then some 2 else none

/-- Example input: unit 7 refuels twice but no work log exists, so its one
interval gets zero hours worked. -/
def abSinHoras : List Abast :=
  [⟨7, enc 2024 1 1 0 0, 50⟩, ⟨7, enc 2024 1 15 0 0, 40⟩]

lemma agregar_map_fst (rows : List ((Int × Nat) × ℚ)) :
    (agregar rows).map Prod.fst =
      ((rows.map Prod.fst).dedup).insertionSort claveLe := by
  simp [agregar, List.map_map, Function.comp_def]

lemma agregar_keys_nodup (rows : List ((Int × Nat) × ℚ)) :
    ((agregar rows).map Prod.fst).Nodup := by
  rw [agregar_map_fst]
  exact ((List.perm_insertionSort claveLe _).nodup_iff).mpr
    (List.nodup_dedup _)

lemma agregar_keys_sorted (rows : List ((Int × Nat) × ℚ)) :
    List.Sorted claveLe ((agregar rows).map Prod.fst) := by
  rw [agregar_map_fst]
  exact List.sorted_insertionSort claveLe _

lemma map_fst_sum_filter (rows : List ((Int × Nat) × ℚ))
    (h : (rows.map Prod.fst).Nodup) :
    (rows.map Prod.fst).map
      (fun k => (k, ((rows.filter fun r => decide (r.1 = k)).map Prod.snd).sum))
      = rows := by
  induction rows with
  | nil => rfl
  | cons r rest ih =>
    simp only [List.map_cons, List.nodup_cons] at h ⊢
    rw [List.cons_eq_cons]
    constructor
    · have hrest : rest.filter (fun x => decide (x.1 = r.1)) = [] := by
        rw [List.filter_eq_nil_iff]
        intro x hx
        simp only [decide_eq_true_eq]
        intro heq
        exact h.1 (heq ▸ List.mem_map_of_mem Prod.fst hx)
      simp [List.filter_cons, hrest]
    · have hcong : ∀ k ∈ rest.map Prod.fst,
          (k, (((r :: rest).filter fun x => decide (x.1 = k)).map Prod.snd).sum)
            = (k, ((rest.filter fun x => decide (x.1 = k)).map Prod.snd).sum) := by
        intro k hk
        have hne : r.1 ≠ k := by
          intro hgoal
          exact h.1 (hgoal ▸ hk)
        simp [List.filter_cons, hne]
      rw [List.map_congr_left hcong]
      exact ih h.2

lemma agregar_eq_self (rows : List ((Int × Nat) × ℚ))
    (hnd : (rows.map Prod.fst).Nodup)
    (hsort : List.Sorted claveLe (rows.map Prod.fst)) :
    agregar rows = rows := by
  unfold agregar
  rw [List.dedup_eq_self.mpr hnd, hsort.insertionSort_eq]
  exact map_fst_sum_filter rows hnd

lemma agregar_idem (rows : List ((Int × Nat) × ℚ)) :
    agregar (agregar rows) = agregar rows :=
  agregar_eq_self _ (agregar_keys_nodup rows) (agregar_keys_sorted rows)

lemma agregar_snd_nonneg (rows : List ((Int × Nat) × ℚ))
    (h : ∀ r ∈ rows, 0 ≤ r.2) :
    ∀ p ∈ agregar rows, 0 ≤ p.2 := by
  intro p hp
  simp only [agregar, List.mem_map] at hp
  obtain ⟨k, _, rfl⟩ := hp
  apply List.sum_nonneg
  intro x hx
  simp only [List.mem_map, List.mem_filter] at hx
  obtain ⟨r, ⟨hr, _⟩, rfl⟩ := hx
  exact h r hr

lemma zip_tail_getElem? {α : Type} (l : List α) (k : Nat) :
    (l.zip l.tail)[k]? =
      l[k]?.bind fun a => (l[k + 1]?).map fun b => (a, b) := by
  have hlen : (l.zip l.tail).length = l.length - 1 := by
    rw [List.length_zip, List.length_tail]
    omega
  by_cases hk : k < l.length - 1
  · have h1 : k < l.length := by omega
    have h2 : k + 1 < l.length := by omega
    have hz : k < (l.zip l.tail).length := by omega
    rw [List.getElem?_eq_getElem hz, List.getElem?_eq_getElem h1,
      List.getElem?_eq_getElem h2, List.getElem_zip, List.getElem_tail]
    rfl
  · have hz : (l.zip l.tail)[k]? = none :=
      List.getElem?_eq_none (by omega)
    rw [hz]
    by_cases h1 : k < l.length
    · have h2 : l[k + 1]? = none := List.getElem?_eq_none (by omega)
      rw [List.getElem?_eq_getElem h1, h2]
      rfl
    · rw [List.getElem?_eq_none (by omega)]
      rfl

lemma construir_length (e : Int) (l : List Abast) (hs : List Hora) :
    (construirIntervalos e l hs).length = l.length - 1 := by
  rw [construirIntervalos, List.length_map, List.length_zip, List.length_tail]
  omega

lemma construir_getElem? (e : Int) (l : List Abast) (hs : List Hora) (k : Nat) :
    (construirIntervalos e l hs)[k]? =
      ((l.zip l.tail)[k]?).map (intervaloDe e hs) := by
  rw [construirIntervalos, List.getElem?_map]

lemma construir_codigo (e : Int) (l : List Abast) (hs : List Hora) :
    ∀ iv ∈ construirIntervalos e l hs, iv.codigo = e := by
  intro iv hiv
  simp only [construirIntervalos, List.mem_map] at hiv
  obtain ⟨p, _, rfl⟩ := hiv
  rfl

lemma construir_mem (e : Int) (l : List Abast) (hs : List Hora) :
    ∀ iv ∈ construirIntervalos e l hs,
      ∃ p ∈ l.zip l.tail, iv = intervaloDe e hs p := by
  intro iv hiv
  simp only [construirIntervalos, List.mem_map] at hiv
  obtain ⟨p, hp, rfl⟩ := hiv
  exact ⟨p, hp, rfl⟩

lemma flatMap_if_eq {α β : Type} [DecidableEq α] (es : List α) (L : List β)
    (e : α) (hnd : es.Nodup) (he : e ∈ es) :
    (es.flatMap fun x => if x = e then L else []) = L := by
  induction es with
  | nil => cases he
  | cons a rest ih =>
    rw [List.nodup_cons] at hnd
    rcases List.mem_cons.mp he with rfl | hmem
    · have hrest : (rest.flatMap fun x => if x = e then L else []) = [] := by
        rw [List.flatMap_eq_nil_iff]
        intro x hx
        have : x ≠ e := fun hxe => hnd.1 (hxe ▸ hx)
        simp [this]
      simp [List.flatMap_cons, hrest]
    · have hne : a ≠ e := fun hae => hnd.1 (hae ▸ hmem)
      simp only [List.flatMap_cons, if_neg hne, List.nil_append]
      exact ih hnd.2 hmem

lemma procesar_filter_eq (ab : List Abast) (hs : List Hora) (e : Int)
    (he : e ∈ (agruparAbastecimientos ab).map Abast.codigo) :
    (procesar_datos ab hs).filter (fun iv => decide (iv.codigo = e)) =
      construirIntervalos e
        (datosAbastecimientoDe (agruparAbastecimientos ab) e)
        (datosHorasDe (agruparHoras hs) e) := by
  unfold procesar_datos
  rw [List.filter_flatMap]
  have hstep : ∀ e0, (List.filter (fun iv => decide (iv.codigo = e))
      (construirIntervalos e0
        (datosAbastecimientoDe (agruparAbastecimientos ab) e0)
        (datosHorasDe (agruparHoras hs) e0))) =
      if e0 = e then
        construirIntervalos e
          (datosAbastecimientoDe (agruparAbastecimientos ab) e)
          (datosHorasDe (agruparHoras hs) e)
      else [] := by
    intro e0
    by_cases h0 : e0 = e
    · subst h0
      rw [if_pos rfl, List.filter_eq_self]
      intro iv hiv
      simp [construir_codigo _ _ _ iv hiv]
    · rw [if_neg h0, List.filter_eq_nil_iff]
      intro iv hiv
      simp [construir_codigo _ _ _ iv hiv, h0]
  calc ((agruparAbastecimientos ab).map Abast.codigo).dedup.flatMap
        (fun e0 => List.filter (fun iv => decide (iv.codigo = e))
          (construirIntervalos e0
            (datosAbastecimientoDe (agruparAbastecimientos ab) e0)
            (datosHorasDe (agruparHoras hs) e0)))
      = ((agruparAbastecimientos ab).map Abast.codigo).dedup.flatMap
        (fun e0 => if e0 = e then
            construirIntervalos e
              (datosAbastecimientoDe (agruparAbastecimientos ab) e)
              (datosHorasDe (agruparHoras hs) e)
          else []) := by
        exact List.flatMap_congr (fun e0 _ => hstep e0)
    _ = construirIntervalos e
          (datosAbastecimientoDe (agruparAbastecimientos ab) e)
          (datosHorasDe (agruparHoras hs) e) :=
        flatMap_if_eq _ _ _ (List.nodup_dedup _) (List.mem_dedup.mpr he)

lemma claves_abG_nodup (rows : List Abast) :
    ((agruparAbastecimientos rows).map fun r => (r.codigo, r.fecha)).Nodup := by
  have heq : ((agruparAbastecimientos rows).map fun r => (r.codigo, r.fecha))
      = (agregar (rows.map fun r => ((r.codigo, r.fecha), r.cantidad))).map
          Prod.fst := by
    simp [agruparAbastecimientos, List.map_map, Function.comp_def]
  rw [heq]
  exact agregar_keys_nodup _

lemma filtro_fechas_nodup (rows : List Abast) (e : Int) :
    (((agruparAbastecimientos rows).filter fun r => decide (r.codigo = e)).map
      Abast.fecha).Nodup := by
  have hsub : (((agruparAbastecimientos rows).filter
        fun r => decide (r.codigo = e)).map fun r => (r.codigo, r.fecha)).Sublist
      ((agruparAbastecimientos rows).map fun r => (r.codigo, r.fecha)) :=
    (List.filter_sublist _).map _
  have hnd := (claves_abG_nodup rows).sublist hsub
  have h2 : (((agruparAbastecimientos rows).filter
        fun r => decide (r.codigo = e)).map Abast.fecha)
      = ((((agruparAbastecimientos rows).filter
          fun r => decide (r.codigo = e)).map
            fun r => (r.codigo, r.fecha)).map Prod.snd) := by
    simp [List.map_map, Function.comp_def]
  rw [h2]
  apply hnd.map_on
  intro x hx y hy hxy
  simp only [List.mem_map, List.mem_filter, decide_eq_true_eq] at hx hy
  obtain ⟨rx, ⟨_, hex⟩, rfl⟩ := hx
  obtain ⟨ry, ⟨_, hey⟩, rfl⟩ := hy
  exact Prod.ext (by rw [hex, hey]) hxy

lemma datosAbast_sorted (rows : List Abast) (e : Int) :
    List.Sorted fechaLeA (datosAbastecimientoDe (agruparAbastecimientos rows) e) :=
  List.sorted_insertionSort _ _

lemma datosAbast_fechas_nodup (rows : List Abast) (e : Int) :
    ((datosAbastecimientoDe (agruparAbastecimientos rows) e).map
      Abast.fecha).Nodup := by
  rw [datosAbastecimientoDe,
    ((List.perm_insertionSort fechaLeA _).map Abast.fecha).nodup_iff]
  exact filtro_fechas_nodup rows e

lemma datosAbast_strict (rows : List Abast) (e : Int) :
    ∀ i j (hi : i < (datosAbastecimientoDe (agruparAbastecimientos rows) e).length)
      (hj : j < (datosAbastecimientoDe (agruparAbastecimientos rows) e).length),
      i < j →
      ((datosAbastecimientoDe (agruparAbastecimientos rows) e).get ⟨i, hi⟩).fecha <
        ((datosAbastecimientoDe (agruparAbastecimientos rows) e).get ⟨j, hj⟩).fecha := by
  intro i j hi hj hij
  have hsorted := datosAbast_sorted rows e
  have hle : fechaLeA ((datosAbastecimientoDe (agruparAbastecimientos rows) e).get ⟨i, hi⟩)
      ((datosAbastecimientoDe (agruparAbastecimientos rows) e).get ⟨j, hj⟩) :=
    List.pairwise_iff_get.mp hsorted ⟨i, hi⟩ ⟨j, hj⟩ hij
  have hnodup := datosAbast_fechas_nodup rows e
  have him : i < ((datosAbastecimientoDe (agruparAbastecimientos rows) e).map
      Abast.fecha).length := by
    rw [List.length_map]; exact hi
  have hjm : j < ((datosAbastecimientoDe (agruparAbastecimientos rows) e).map
      Abast.fecha).length := by
    rw [List.length_map]; exact hj
  have hne : ((datosAbastecimientoDe (agruparAbastecimientos rows) e).get ⟨i, hi⟩).fecha ≠
      ((datosAbastecimientoDe (agruparAbastecimientos rows) e).get ⟨j, hj⟩).fecha := by
    intro heq
    have hgm : ((datosAbastecimientoDe (agruparAbastecimientos rows) e).map
        Abast.fecha).get ⟨i, him⟩ =
        ((datosAbastecimientoDe (agruparAbastecimientos rows) e).map
          Abast.fecha).get ⟨j, hjm⟩ := by
      simpa using heq
    have := (List.Nodup.get_inj_iff hnodup).mp hgm
    simp only [Fin.mk.injEq] at this
    omega
  unfold fechaLeA at hle
  omega

/-- C1: for an equipment unit whose aggregated, date-sorted refuel table has
exactly N records (N ≥ 1), procesar_datos emits exactly max(N-1,0) = N-1
consumption intervals for that unit; the k-th interval starts at the k-th
refuel date, ends at the (k+1)-th refuel date, and carries the volume of
the refuel at the interval start (not the end refuel). -/
theorem C1_interval_builder (ab : List Abast) (hs : List Hora) (e : Int) (N : Nat)
    (hN : (datosAbastecimientoDe (agruparAbastecimientos ab) e).length = N)
    (h1 : 1 ≤ N) :
    ((procesar_datos ab hs).filter fun iv => decide (iv.codigo = e)).length = N - 1 ∧
    ∀ k, k < N - 1 →
      ((procesar_datos ab hs).filter fun iv => decide (iv.codigo = e))[k]?.map
          Intervalo.fechaInicio =
        ((datosAbastecimientoDe (agruparAbastecimientos ab) e)[k]?.map Abast.fecha) ∧
      ((procesar_datos ab hs).filter fun iv => decide (iv.codigo = e))[k]?.map
          Intervalo.fechaFin =
        ((datosAbastecimientoDe (agruparAbastecimientos ab) e)[k + 1]?.map Abast.fecha) ∧
      ((procesar_datos ab hs).filter fun iv => decide (iv.codigo = e))[k]?.map
          Intervalo.galones =
        ((datosAbastecimientoDe (agruparAbastecimientos ab) e)[k]?.map Abast.cantidad) := by
  have hne : datosAbastecimientoDe (agruparAbastecimientos ab) e ≠ [] := by
    intro h0
    rw [h0] at hN
    simp only [List.length_nil] at hN
    omega
  have he : e ∈ (agruparAbastecimientos ab).map Abast.codigo := by
    obtain ⟨x, hx⟩ := List.exists_mem_of_ne_nil _ hne
    rw [datosAbastecimientoDe, List.mem_insertionSort, List.mem_filter] at hx
    exact List.mem_map.mpr ⟨x, hx.1, by simpa using hx.2⟩
  rw [procesar_filter_eq ab hs e he]
  refine ⟨by rw [construir_length, hN], ?_⟩
  intro k hk
  have hkl : k < (datosAbastecimientoDe (agruparAbastecimientos ab) e).length := by
    omega
  have hkl1 : k + 1 < (datosAbastecimientoDe (agruparAbastecimientos ab) e).length := by
    omega
  rw [construir_getElem?, zip_tail_getElem?,
    List.getElem?_eq_getElem hkl, List.getElem?_eq_getElem hkl1]
  simp [intervaloDe]

theorem C1_interval_builder_witness :
    ((procesar_datos abEjemplo hsEjemplo).filter
        fun iv => decide (iv.codigo = 101)).length = 2 - 1 ∧
    ∀ k, k < 2 - 1 →
      ((procesar_datos abEjemplo hsEjemplo).filter
          fun iv => decide (iv.codigo = 101))[k]?.map Intervalo.fechaInicio =
        ((datosAbastecimientoDe (agruparAbastecimientos abEjemplo) 101)[k]?.map
          Abast.fecha) ∧
      ((procesar_datos abEjemplo hsEjemplo).filter
          fun iv => decide (iv.codigo = 101))[k]?.map Intervalo.fechaFin =
        ((datosAbastecimientoDe (agruparAbastecimientos abEjemplo) 101)[k + 1]?.map
          Abast.fecha) ∧
      ((procesar_datos abEjemplo hsEjemplo).filter
          fun iv => decide (iv.codigo = 101))[k]?.map Intervalo.galones =
        ((datosAbastecimientoDe (agruparAbastecimientos abEjemplo) 101)[k]?.map
          Abast.cantidad) :=
  C1_interval_builder abEjemplo hsEjemplo 101 2
    (by
      simp [datosAbastecimientoDe, agruparAbastecimientos, agregar, abEjemplo,
        enc, List.insertionSort, List.orderedInsert, claveLe, fechaLeA,
        List.dedup_cons_of_mem, List.dedup_cons_of_not_mem])
    (by omega)

lemma procesar_filter_cases (ab : List Abast) (hs : List Hora) (e : Int) :
    (procesar_datos ab hs).filter (fun iv => decide (iv.codigo = e)) = [] ∨
    (procesar_datos ab hs).filter (fun iv => decide (iv.codigo = e)) =
      construirIntervalos e
        (datosAbastecimientoDe (agruparAbastecimientos ab) e)
        (datosHorasDe (agruparHoras hs) e) := by
  by_cases he : e ∈ (agruparAbastecimientos ab).map Abast.codigo
  · exact Or.inr (procesar_filter_eq ab hs e he)
  · left
    rw [List.filter_eq_nil_iff]
    intro iv hiv
    simp only [procesar_datos, List.mem_flatMap, List.mem_dedup] at hiv
    obtain ⟨e0, he0, hmem⟩ := hiv
    have : iv.codigo = e0 := construir_codigo _ _ _ iv hmem
    simp only [decide_eq_true_eq, this]
    intro hng
    exact he (hng ▸ he0)

lemma construir_getElem?_some (e : Int) (l : List Abast) (hE : List Hora)
    (k : Nat) (hk : k + 1 < l.length) :
    (construirIntervalos e l hE)[k]? =
      some (intervaloDe e hE (l.get ⟨k, by omega⟩, l.get ⟨k + 1, hk⟩)) := by
  rw [construir_getElem?, zip_tail_getElem?,
    List.getElem?_eq_getElem (show k < l.length by omega),
    List.getElem?_eq_getElem hk]
  simp [List.get_eq_getElem]

lemma construir_getElem?_none (e : Int) (l : List Abast) (hE : List Hora)
    (k : Nat) (hk : l.length ≤ k + 1) :
    (construirIntervalos e l hE)[k]? = none :=
  List.getElem?_eq_none (by rw [construir_length]; omega)

lemma construir_some_spec (e : Int) (l : List Abast) (hE : List Hora)
    (k : Nat) (a : Intervalo)
    (h : (construirIntervalos e l hE)[k]? = some a) :
    ∃ hk : k + 1 < l.length,
      a = intervaloDe e hE (l.get ⟨k, by omega⟩, l.get ⟨k + 1, hk⟩) := by
  by_cases hk : k + 1 < l.length
  · refine ⟨hk, ?_⟩
    rw [construir_getElem?_some e l hE k hk] at h
    exact (Option.some_inj.mp h).symm
  · rw [construir_getElem?_none e l hE k (by omega)] at h
    cases h

lemma construir_fin_le_inicio (e : Int) (l : List Abast) (hE : List Hora)
    (hstrict : ∀ i j (hi : i < l.length) (hj : j < l.length), i < j →
      (l.get ⟨i, hi⟩).fecha < (l.get ⟨j, hj⟩).fecha)
    (i j : Nat) (a b : Intervalo) (hij : i < j)
    (ha : (construirIntervalos e l hE)[i]? = some a)
    (hb : (construirIntervalos e l hE)[j]? = some b) :
    a.fechaFin ≤ b.fechaInicio := by
  obtain ⟨hi, rfl⟩ := construir_some_spec e l hE i a ha
  obtain ⟨hj, rfl⟩ := construir_some_spec e l hE j b hb
  show (l.get ⟨i + 1, hi⟩).fecha ≤ (l.get ⟨j, by omega⟩).fecha
  rcases Nat.eq_or_lt_of_le (show i + 1 ≤ j by omega) with heq | hlt
  · subst heq
    exact le_refl _
  · exact le_of_lt (hstrict (i + 1) j hi (by omega) hlt)

lemma construir_inicio_lt_fin (e : Int) (l : List Abast) (hE : List Hora)
    (hstrict : ∀ i j (hi : i < l.length) (hj : j < l.length), i < j →
      (l.get ⟨i, hi⟩).fecha < (l.get ⟨j, hj⟩).fecha)
    (k : Nat) (a : Intervalo)
    (ha : (construirIntervalos e l hE)[k]? = some a) :
    a.fechaInicio < a.fechaFin := by
  obtain ⟨hk, rfl⟩ := construir_some_spec e l hE k a ha
  exact hstrict k (k + 1) (by omega) hk (by omega)

lemma construir_contiguo (e : Int) (l : List Abast) (hE : List Hora)
    (k : Nat) (a b : Intervalo)
    (ha : (construirIntervalos e l hE)[k]? = some a)
    (hb : (construirIntervalos e l hE)[k + 1]? = some b) :
    a.fechaFin = b.fechaInicio := by
  obtain ⟨hk, rfl⟩ := construir_some_spec e l hE k a ha
  obtain ⟨hk1, rfl⟩ := construir_some_spec e l hE (k + 1) b hb
  rfl

lemma construir_bordes_mem (e : Int) (l : List Abast) (hE : List Hora) :
    ∀ iv ∈ construirIntervalos e l hE,
      (∃ r ∈ l, iv.fechaInicio = r.fecha) ∧
      (∃ r ∈ l, iv.fechaFin = r.fecha) := by
  intro iv hiv
  obtain ⟨p, hp, rfl⟩ := construir_mem e l hE iv hiv
  obtain ⟨hp1, hp2⟩ := List.of_mem_zip hp
  exact ⟨⟨p.1, hp1, rfl⟩, ⟨p.2, List.mem_of_mem_tail hp2, rfl⟩⟩

lemma agruparHoras_nonneg (hs : List Hora)
    (hdur : ∀ h ∈ hs, 0 ≤ h.duracion) :
    ∀ h2 ∈ agruparHoras hs, 0 ≤ h2.duracion := by
  intro h2 hh2
  simp only [agruparHoras, List.mem_map] at hh2
  obtain ⟨p, hp, rfl⟩ := hh2
  refine agregar_snd_nonneg (hs.map fun r => ((r.codigo, r.fecha), r.duracion))
    ?_ p hp
  intro r hr
  simp only [List.mem_map] at hr
  obtain ⟨h0, hh0, rfl⟩ := hr
  exact hdur h0 hh0

/-- C2: every emitted interval's hours_worked is nonnegative and equals the
sum of the unit's aggregated work durations with timestamp in
(interval_start, interval_end]; intervals of one unit are pairwise disjoint
as half-open-left ranges, so a work event is attributed to at most one
interval; a timestamp equal to a shared boundary lies in the earlier
interval and not the later; timestamps at or before the first refuel, or
after the last, lie in no interval. -/
theorem C2_hours_attribution (ab : List Abast) (hs : List Hora) (e : Int)
    (hdur : ∀ h ∈ hs, 0 ≤ h.duracion) :
    (∀ iv ∈ (procesar_datos ab hs).filter fun iv => decide (iv.codigo = e),
      0 ≤ iv.horasTrabajadas ∧
      iv.horasTrabajadas =
        horasEnRango (agruparHoras hs) e iv.fechaInicio iv.fechaFin) ∧
    (∀ t : Nat,
      ((procesar_datos ab hs).filter fun iv => decide (iv.codigo = e)).Pairwise
        fun a b => ¬((a.fechaInicio < t ∧ t ≤ a.fechaFin) ∧
          (b.fechaInicio < t ∧ t ≤ b.fechaFin))) ∧
    (∀ k a b,
      ((procesar_datos ab hs).filter fun iv => decide (iv.codigo = e))[k]? = some a →
      ((procesar_datos ab hs).filter fun iv => decide (iv.codigo = e))[k + 1]? = some b →
      a.fechaFin = b.fechaInicio ∧
      (a.fechaInicio < a.fechaFin ∧ a.fechaFin ≤ a.fechaFin) ∧
      ¬(b.fechaInicio < a.fechaFin ∧ a.fechaFin ≤ b.fechaFin)) ∧
    (∀ t : Nat,
      ((∀ r ∈ datosAbastecimientoDe (agruparAbastecimientos ab) e, t ≤ r.fecha) ∨
       (∀ r ∈ datosAbastecimientoDe (agruparAbastecimientos ab) e, r.fecha < t)) →
      ∀ iv ∈ (procesar_datos ab hs).filter fun iv => decide (iv.codigo = e),
        ¬(iv.fechaInicio < t ∧ t ≤ iv.fechaFin)) := by
  rcases procesar_filter_cases ab hs e with hnil | heq
  · rw [hnil]
    exact ⟨by simp, by simp, by simp, by simp⟩
  · rw [heq]
    have hstrict := datosAbast_strict ab e
    refine ⟨?_, ?_, ?_, ?_⟩
    · intro iv hiv
      obtain ⟨p, hp, rfl⟩ := construir_mem _ _ _ iv hiv
      constructor
      · show 0 ≤ (((datosHorasDe (agruparHoras hs) e).filter fun h =>
            decide (p.1.fecha < h.fecha) && decide (h.fecha ≤ p.2.fecha)).map
              Hora.duracion).sum
        apply List.sum_nonneg
        intro x hx
        simp only [List.mem_map, List.mem_filter] at hx
        obtain ⟨h2, ⟨hh2, _⟩, rfl⟩ := hx
        have : h2 ∈ agruparHoras hs := List.mem_of_mem_filter hh2
        exact agruparHoras_nonneg hs hdur h2 this
      · rfl
    · intro t
      rw [List.pairwise_iff_getElem]
      intro i j hi hj hij
      intro hcon
      obtain ⟨⟨ha1, ha2⟩, hb1, hb2⟩ := hcon
      have hle := construir_fin_le_inicio e
        (datosAbastecimientoDe (agruparAbastecimientos ab) e)
        (datosHorasDe (agruparHoras hs) e) hstrict i j _ _ hij
        (List.getElem?_eq_getElem hi) (List.getElem?_eq_getElem hj)
      omega
    · intro k a b ha hb
      have hcont := construir_contiguo e
        (datosAbastecimientoDe (agruparAbastecimientos ab) e)
        (datosHorasDe (agruparHoras hs) e) k a b ha hb
      have hlt := construir_inicio_lt_fin e
        (datosAbastecimientoDe (agruparAbastecimientos ab) e)
        (datosHorasDe (agruparHoras hs) e) hstrict k a ha
      refine ⟨hcont, ⟨hlt, le_refl _⟩, ?_⟩
      intro hmal
      omega
    · intro t hcase iv hiv hcon
      obtain ⟨⟨r1, hr1, he1⟩, ⟨r2, hr2, he2⟩⟩ := construir_bordes_mem _ _ _ iv hiv
      rcases hcase with hall | hall
      · have := hall r1 hr1
        omega
      · have := hall r2 hr2
        omega

theorem C2_hours_attribution_witness :
    (∀ h ∈ hsEjemplo, 0 ≤ h.duracion) ∧
    ((∀ iv ∈ (procesar_datos abEjemplo hsEjemplo).filter
        fun iv => decide (iv.codigo = 101),
      0 ≤ iv.horasTrabajadas ∧
      iv.horasTrabajadas =
        horasEnRango (agruparHoras hsEjemplo) 101 iv.fechaInicio iv.fechaFin) ∧
    (∀ t : Nat,
      ((procesar_datos abEjemplo hsEjemplo).filter
          fun iv => decide (iv.codigo = 101)).Pairwise
        fun a b => ¬((a.fechaInicio < t ∧ t ≤ a.fechaFin) ∧
          (b.fechaInicio < t ∧ t ≤ b.fechaFin))) ∧
    (∀ k a b,
      ((procesar_datos abEjemplo hsEjemplo).filter
          fun iv => decide (iv.codigo = 101))[k]? = some a →
      ((procesar_datos abEjemplo hsEjemplo).filter
          fun iv => decide (iv.codigo = 101))[k + 1]? = some b →
      a.fechaFin = b.fechaInicio ∧
      (a.fechaInicio < a.fechaFin ∧ a.fechaFin ≤ a.fechaFin) ∧
      ¬(b.fechaInicio < a.fechaFin ∧ a.fechaFin ≤ b.fechaFin)) ∧
    (∀ t : Nat,
      ((∀ r ∈ datosAbastecimientoDe (agruparAbastecimientos abEjemplo) 101,
          t ≤ r.fecha) ∨
       (∀ r ∈ datosAbastecimientoDe (agruparAbastecimientos abEjemplo) 101,
          r.fecha < t)) →
      ∀ iv ∈ (procesar_datos abEjemplo hsEjemplo).filter
          fun iv => decide (iv.codigo = 101),
        ¬(iv.fechaInicio < t ∧ t ≤ iv.fechaFin))) :=
  ⟨by
    intro h hh
    simp only [hsEjemplo, List.mem_cons, List.not_mem_nil, or_false] at hh
    rcases hh with rfl | rfl | rfl <;> norm_num,
   C2_hours_attribution abEjemplo hsEjemplo 101
    (by
      intro h hh
      simp only [hsEjemplo, List.mem_cons, List.not_mem_nil, or_false] at hh
      rcases hh with rfl | rfl | rfl <;> norm_num)⟩

/-- C8 counterexample: a table with one row per key that is not sorted by
the group key is changed by re-aggregation, because the groupby emits its
groups with keys sorted ascending.  The two-row table below has distinct
keys (2,0) and (1,0), yet aggregating it swaps the rows. -/
theorem C8_idempotence_counterexample :
    ((([((2, 0), 1), ((1, 0), 1)] : List ((Int × Nat) × ℚ)).map Prod.fst).Nodup) ∧
    agregar [((2, 0), 1), ((1, 0), 1)] ≠ [((2, 0), 1), ((1, 0), 1)] := by
  constructor
  · decide
  · simp [agregar, List.insertionSort, List.orderedInsert,
      List.dedup_cons_of_mem, List.dedup_cons_of_not_mem, claveLe]

/-- C8 amended: the Event Aggregator is idempotent on its own output
(re-aggregating an aggregated table is the identity), and an input with at
most one row per (equipment, date) key is reproduced identically provided
it is also sorted by the group key, as the aggregator's own output always
is. -/
theorem C8_idempotence_amended (rows : List ((Int × Nat) × ℚ)) :
    agregar (agregar rows) = agregar rows ∧
    ((rows.map Prod.fst).Nodup → List.Sorted claveLe (rows.map Prod.fst) →
      agregar rows = rows) :=
  ⟨agregar_idem rows, fun h1 h2 => agregar_eq_self rows h1 h2⟩

theorem C8_idempotence_amended_witness :
    ((([((1, 0), 2), ((2, 0), 3)] : List ((Int × Nat) × ℚ)).map Prod.fst).Nodup ∧
      List.Sorted claveLe
        (([((1, 0), 2), ((2, 0), 3)] : List ((Int × Nat) × ℚ)).map Prod.fst)) ∧
    (agregar (agregar [((1, 0), 2), ((2, 0), 3)]) =
        agregar [((1, 0), 2), ((2, 0), 3)] ∧
      ((([((1, 0), 2), ((2, 0), 3)] : List ((Int × Nat) × ℚ)).map Prod.fst).Nodup →
        List.Sorted claveLe
          (([((1, 0), 2), ((2, 0), 3)] : List ((Int × Nat) × ℚ)).map Prod.fst) →
        agregar [((1, 0), 2), ((2, 0), 3)] = [((1, 0), 2), ((2, 0), 3)])) :=
  ⟨⟨by decide, by simp [List.sorted_cons, claveLe]⟩,
    C8_idempotence_amended [((1, 0), 2), ((2, 0), 3)]⟩

lemma resumen_mem_spec (ivs : List Intervalo) (hist : Int → Option ℚ) :
    ∀ r ∈ resumenMensual ivs hist,
      r.galonesTotales = ((ivs.filter fun iv =>
          decide ((iv.codigo, truncMes iv.fechaInicio) = (r.codigo, r.mes))).map
          Intervalo.galones).sum ∧
      r.horasTotales = ((ivs.filter fun iv =>
          decide ((iv.codigo, truncMes iv.fechaInicio) = (r.codigo, r.mes))).map
          Intervalo.horasTrabajadas).sum ∧
      r.mediaConsumo = divFloat r.galonesTotales r.horasTotales ∧
      r.histRate = hist r.codigo ∧
      r.pctDiferencia = pctDif r.mediaConsumo r.histRate := by
  intro r hr
  simp only [resumenMensual, List.mem_map] at hr
  obtain ⟨k, hk, rfl⟩ := hr
  refine ⟨?_, ?_, rfl, rfl, rfl⟩ <;> simp

lemma esAlerta_some (x : ℚ) : esAlerta (some x) = true ↔ 10 < |x| := by
  simp only [esAlerta, Bool.or_eq_true, decide_eq_true_eq]
  rw [lt_abs]
  constructor
  · rintro (h | h)
    · exact Or.inl h
    · exact Or.inr (by linarith)
  · rintro (h | h)
    · exact Or.inl h
    · exact Or.inr (by linarith)

lemma esNominal_some (x : ℚ) : esNominal (some x) = true ↔ |x| ≤ 10 := by
  simp only [esNominal, Bool.and_eq_true, decide_eq_true_eq]
  rw [abs_le]

/-- C4: the monthly summary groups intervals by (equipment code, month of
interval_start truncated to first-of-month) and computes the group rate as
the hours-weighted quotient sum(volume) / sum(hours) over the group — the
weighted form, not the mean of per-interval rates; on the timestamp
encoding, truncation of an in-range date is first-of-month midnight. -/
theorem C4_monthly_aggregator (ivs : List Intervalo) (hist : Int → Option ℚ) :
    ((resumenMensual ivs hist).map fun r => (r.codigo, r.mes)) = clavesMes ivs ∧
    (∀ r ∈ resumenMensual ivs hist,
      r.galonesTotales = ((ivs.filter fun iv =>
          decide ((iv.codigo, truncMes iv.fechaInicio) = (r.codigo, r.mes))).map
          Intervalo.galones).sum ∧
      r.horasTotales = ((ivs.filter fun iv =>
          decide ((iv.codigo, truncMes iv.fechaInicio) = (r.codigo, r.mes))).map
          Intervalo.horasTrabajadas).sum ∧
      (r.horasTotales ≠ 0 →
        r.mediaConsumo = some (r.galonesTotales / r.horasTotales))) ∧
    (∀ y mo d hh mi : Nat, d < 100 → hh < 100 → mi < 100 →
      truncMes (enc y mo d hh mi) = enc y mo 1 0 0) := by
  refine ⟨?_, ?_, ?_⟩
  · simp [resumenMensual, List.map_map, Function.comp_def]
  · intro r hr
    obtain ⟨h1, h2, h3, _, _⟩ := resumen_mem_spec ivs hist r hr
    refine ⟨h1, h2, fun hz => ?_⟩
    rw [h3, divFloat, if_neg hz]
  · intro y mo d hh mi hd hhh hmi
    simp only [truncMes, enc]
    omega

theorem C4_monthly_aggregator_witness :
    ((resumenMensual (procesar_datos abEjemplo hsEjemplo) histEjemplo).map
        fun r => (r.codigo, r.mes)) =
      clavesMes (procesar_datos abEjemplo hsEjemplo) ∧
    (∀ r ∈ resumenMensual (procesar_datos abEjemplo hsEjemplo) histEjemplo,
      r.galonesTotales = (((procesar_datos abEjemplo hsEjemplo).filter fun iv =>
          decide ((iv.codigo, truncMes iv.fechaInicio) = (r.codigo, r.mes))).map
          Intervalo.galones).sum ∧
      r.horasTotales = (((procesar_datos abEjemplo hsEjemplo).filter fun iv =>
          decide ((iv.codigo, truncMes iv.fechaInicio) = (r.codigo, r.mes))).map
          Intervalo.horasTrabajadas).sum ∧
      (r.horasTotales ≠ 0 →
        r.mediaConsumo = some (r.galonesTotales / r.horasTotales))) ∧
    (∀ y mo d hh mi : Nat, d < 100 → hh < 100 → mi < 100 →
      truncMes (enc y mo d hh mi) = enc y mo 1 0 0) :=
  C4_monthly_aggregator (procesar_datos abEjemplo hsEjemplo) histEjemplo

/-- C5: for a summary row with a present, nonzero baseline and a defined
mean rate, the percent deviation equals 100 (mean - baseline) / baseline;
the row is classified alert exactly when the absolute deviation exceeds 10
and nominal exactly when it is at most 10, and the two classes partition
such rows; with an absent baseline the row is in neither class. -/
theorem C5_deviation_classification (ivs : List Intervalo)
    (hist : Int → Option ℚ) (r : Resumen)
    (hr : r ∈ resumenMensual ivs hist) :
    (∀ b m : ℚ, r.histRate = some b → b ≠ 0 → r.mediaConsumo = some m →
      r.pctDiferencia = some (100 * (m - b) / b) ∧
      (esAlerta r.pctDiferencia = true ↔ 10 < |100 * (m - b) / b|) ∧
      (esNominal r.pctDiferencia = true ↔ |100 * (m - b) / b| ≤ 10) ∧
      (esAlerta r.pctDiferencia = true ↔ ¬ esNominal r.pctDiferencia = true)) ∧
    (r.histRate = none →
      esAlerta r.pctDiferencia = false ∧ esNominal r.pctDiferencia = false) := by
  obtain ⟨_, _, _, _, hpd⟩ := resumen_mem_spec ivs hist r hr
  constructor
  · intro b m hb hbne hm
    have hval : r.pctDiferencia = some (100 * (m - b) / b) := by
      rw [hpd, hm, hb]
      have harith : ((m - b) / b) * 100 = 100 * (m - b) / b := by ring
      simp [pctDif, divFloat, if_neg hbne, harith]
    rw [hval]
    refine ⟨rfl, esAlerta_some _, esNominal_some _, ?_⟩
    rw [esAlerta_some, esNominal_some]
    exact lt_iff_not_le
  · intro hnone
    rw [hpd, hnone]
    cases hmc : r.mediaConsumo <;> simp [pctDif, esAlerta, esNominal]

theorem C5_deviation_classification_witness :
    ((⟨101, 202401010000, 50, 20, some (5 / 2 : ℚ), some (2 : ℚ),
        some (25 : ℚ)⟩ : Resumen) ∈
      resumenMensual (procesar_datos abEjemplo hsEjemplo) histEjemplo) ∧
    ((∀ b m : ℚ,
      (⟨101, 202401010000, 50, 20, some (5 / 2 : ℚ), some (2 : ℚ),
        some (25 : ℚ)⟩ : Resumen).histRate = some b → b ≠ 0 →
      (⟨101, 202401010000, 50, 20, some (5 / 2 : ℚ), some (2 : ℚ),
        some (25 : ℚ)⟩ : Resumen).mediaConsumo = some m →
      (⟨101, 202401010000, 50, 20, some (5 / 2 : ℚ), some (2 : ℚ),
        some (25 : ℚ)⟩ : Resumen).pctDiferencia = some (100 * (m - b) / b) ∧
      (esAlerta (⟨101, 202401010000, 50, 20, some (5 / 2 : ℚ), some (2 : ℚ),
        some (25 : ℚ)⟩ : Resumen).pctDiferencia = true ↔
        10 < |100 * (m - b) / b|) ∧
      (esNominal (⟨101, 202401010000, 50, 20, some (5 / 2 : ℚ), some (2 : ℚ),
        some (25 : ℚ)⟩ : Resumen).pctDiferencia = true ↔
        |100 * (m - b) / b| ≤ 10) ∧
      (esAlerta (⟨101, 202401010000, 50, 20, some (5 / 2 : ℚ), some (2 : ℚ),
        some (25 : ℚ)⟩ : Resumen).pctDiferencia = true ↔
        ¬ esNominal (⟨101, 202401010000, 50, 20, some (5 / 2 : ℚ),
          some (2 : ℚ), some (25 : ℚ)⟩ : Resumen).pctDiferencia = true)) ∧
    ((⟨101, 202401010000, 50, 20, some (5 / 2 : ℚ), some (2 : ℚ),
        some (25 : ℚ)⟩ : Resumen).histRate = none →
      esAlerta (⟨101, 202401010000, 50, 20, some (5 / 2 : ℚ), some (2 : ℚ),
        some (25 : ℚ)⟩ : Resumen).pctDiferencia = false ∧
      esNominal (⟨101, 202401010000, 50, 20, some (5 / 2 : ℚ), some (2 : ℚ),
        some (25 : ℚ)⟩ : Resumen).pctDiferencia = false)) := by
  have hlista : resumenMensual (procesar_datos abEjemplo hsEjemplo) histEjemplo =
      [⟨101, 202401010000, 50, 20, some (5 / 2 : ℚ), some (2 : ℚ),
        some (25 : ℚ)⟩] := by
    simp [resumenMensual, clavesMes, procesar_datos, agruparAbastecimientos,
      agruparHoras, agregar, datosAbastecimientoDe, datosHorasDe,
      construirIntervalos, intervaloDe, abEjemplo, hsEjemplo, histEjemplo,
      enc, truncMes, divFloat, pctDif, List.insertionSort, List.orderedInsert,
      claveLe, fechaLeA, List.dedup_cons_of_mem, List.dedup_cons_of_not_mem]
    norm_num
  have hmem : (⟨101, 202401010000, 50, 20, some (5 / 2 : ℚ), some (2 : ℚ),
      some (25 : ℚ)⟩ : Resumen) ∈
      resumenMensual (procesar_datos abEjemplo hsEjemplo) histEjemplo := by
    rw [hlista]
    exact List.mem_singleton.mpr rfl
  exact ⟨hmem, C5_deviation_classification _ _ _ hmem⟩

/-- C3 counterexample: a unit refuelled twice with no work log yields one
interval with zero hours; the per-interval rate is the guarded 0 but the
monthly summary divides the group sums with no zero guard (source line
201), so the monthly rate for that month is the undefined float value
(NaN/inf, modelled none), not the defined business value 0. -/
theorem C3_division_by_zero_counterexample :
    ((resumenMensual (procesar_datos abSinHoras []) (fun _ => none)).map
      fun r => (r.horasTotales, r.mediaConsumo)) = [((0 : ℚ), none)] ∧
    (none : Option ℚ) ≠ some 0 := by
  constructor
  · simp [resumenMensual, clavesMes, procesar_datos, agruparAbastecimientos,
      agruparHoras, agregar, datosAbastecimientoDe, datosHorasDe,
      construirIntervalos, intervaloDe, abSinHoras, enc, truncMes, divFloat,
      pctDif, List.insertionSort, List.orderedInsert, claveLe, fechaLeA,
      List.dedup_cons_of_mem, List.dedup_cons_of_not_mem]
  · simp

/-- C3 amended: the per-interval rate carries the explicit zero guard of
source line 65 and is the defined value 0 whenever the interval's hours
are zero; the monthly hours-weighted rate of line 201 has no guard, so a
(equipment, month) group whose hours sum to zero gets an undefined
(NaN/inf) rate rather than the defined value 0. -/
theorem C3_division_by_zero_amended :
    (∀ (ab : List Abast) (hs : List Hora),
      ∀ iv ∈ procesar_datos ab hs,
        iv.horasTrabajadas = 0 → iv.galonesPorHora = 0) ∧
    (∀ (ivs : List Intervalo) (hist : Int → Option ℚ),
      ∀ r ∈ resumenMensual ivs hist,
        r.horasTotales = 0 → r.mediaConsumo = none) := by
  constructor
  · intro ab hs iv hiv hz
    simp only [procesar_datos, List.mem_flatMap] at hiv
    obtain ⟨e0, _, hmem⟩ := hiv
    obtain ⟨p, _, rfl⟩ := construir_mem _ _ _ iv hmem
    simp only [intervaloDe] at hz ⊢
    rw [hz]
    simp
  · intro ivs hist r hr hz
    obtain ⟨_, _, h3, _, _⟩ := resumen_mem_spec ivs hist r hr
    rw [h3, hz]
    simp [divFloat]

theorem C3_division_by_zero_amended_witness :
    ((⟨7, enc 2024 1 1 0 0, enc 2024 1 15 0 0, 0, 50, 0⟩ : Intervalo) ∈
        procesar_datos abSinHoras [] ∧
      (⟨7, enc 2024 1 1 0 0, enc 2024 1 15 0 0, 0, 50, 0⟩ :
        Intervalo).galonesPorHora = 0) ∧
    ((⟨7, 202401010000, 50, 0, none, none, none⟩ : Resumen) ∈
        resumenMensual (procesar_datos abSinHoras []) (fun _ => none) ∧
      (⟨7, 202401010000, 50, 0, none, none, none⟩ :
        Resumen).mediaConsumo = none) := by
  have hlista : procesar_datos abSinHoras [] =
      [⟨7, enc 2024 1 1 0 0, enc 2024 1 15 0 0, 0, 50, 0⟩] := by
    simp [procesar_datos, agruparAbastecimientos, agruparHoras, agregar,
      datosAbastecimientoDe, datosHorasDe, construirIntervalos, intervaloDe,
      abSinHoras, enc, List.insertionSort, List.orderedInsert, claveLe,
      fechaLeA, List.dedup_cons_of_mem, List.dedup_cons_of_not_mem]
  have hmem1 : (⟨7, enc 2024 1 1 0 0, enc 2024 1 15 0 0, 0, 50, 0⟩ :
      Intervalo) ∈ procesar_datos abSinHoras [] := by
    rw [hlista]
    exact List.mem_singleton.mpr rfl
  have hlista2 : resumenMensual (procesar_datos abSinHoras []) (fun _ => none) =
      [⟨7, 202401010000, 50, 0, none, none, none⟩] := by
    rw [hlista]
    simp [resumenMensual, clavesMes, enc, truncMes, divFloat, pctDif,
      List.insertionSort, List.orderedInsert, claveLe,
      List.dedup_cons_of_mem, List.dedup_cons_of_not_mem]
  have hmem2 : (⟨7, 202401010000, 50, 0, none, none, none⟩ : Resumen) ∈
      resumenMensual (procesar_datos abSinHoras []) (fun _ => none) := by
    rw [hlista2]
    exact List.mem_singleton.mpr rfl
  refine ⟨⟨hmem1, ?_⟩, hmem2,
    C3_division_by_zero_amended.2 _ _ _ hmem2 rfl⟩
  exact C3_division_by_zero_amended.1 abSinHoras [] _ hmem1 rfl

/-- C9: a date range whose filter excludes every interval yields the
no-data outcome instead of an error, and the downstream monthly
aggregation of an empty table is the empty table rather than a failure. -/
theorem C9_empty_filter (ivs : List Intervalo) (a b : Nat)
    (hist : Int → Option ℚ) (hempty : filtrarFecha ivs a b = []) :
    tab2Visualizacion ivs (some (a, b)) hist = VizResultado.sinDatos ∧
    (∀ hist2 : Int → Option ℚ, resumenMensual [] hist2 = []) := by
  refine ⟨?_, fun hist2 => rfl⟩
  simp [tab2Visualizacion, hempty]

theorem C9_empty_filter_witness :
    filtrarFecha (procesar_datos abEjemplo hsEjemplo)
        (enc 2025 1 1 0 0) (enc 2025 12 31 0 0) = [] ∧
    (tab2Visualizacion (procesar_datos abEjemplo hsEjemplo)
        (some (enc 2025 1 1 0 0, enc 2025 12 31 0 0)) histEjemplo =
      VizResultado.sinDatos ∧
    (∀ hist2 : Int → Option ℚ, resumenMensual [] hist2 = [])) := by
  have hempty : filtrarFecha (procesar_datos abEjemplo hsEjemplo)
      (enc 2025 1 1 0 0) (enc 2025 12 31 0 0) = [] := by
    simp [filtrarFecha, procesar_datos, agruparAbastecimientos, agruparHoras,
      agregar, datosAbastecimientoDe, datosHorasDe, construirIntervalos,
      intervaloDe, abEjemplo, hsEjemplo, enc, List.insertionSort,
      List.orderedInsert, claveLe, fechaLeA, List.dedup_cons_of_mem,
      List.dedup_cons_of_not_mem]
  exact ⟨hempty, C9_empty_filter _ _ _ histEjemplo hempty⟩

/-- C6: the refuel-side key cleaning silently excludes exactly the rows
whose identifier does not match the all-digits pattern, converts the
identifiers of all remaining rows to integers, and drops no row whose
identifier is purely numeric. -/
theorem C6_refuel_key_cleaning (rows : List AbastCrudo) :
    (limpiarAbastecimientos rows).length =
      (rows.filter fun r => esNumerico r.codigo).length ∧
    (∀ k : Nat, (limpiarAbastecimientos rows)[k]? =
      ((rows.filter fun r => esNumerico r.codigo)[k]?).map
        fun r : AbastCrudo =>
          (⟨digitosAInt r.codigo, r.fecha, r.cantidad⟩ : Abast)) ∧
    (∀ r ∈ rows, esNumerico r.codigo = true →
      (⟨digitosAInt r.codigo, r.fecha, r.cantidad⟩ : Abast) ∈
        limpiarAbastecimientos rows) := by
  refine ⟨by simp [limpiarAbastecimientos], ?_, ?_⟩
  · intro k
    simp [limpiarAbastecimientos, List.getElem?_map]
  · intro r hr hnum
    exact List.mem_map_of_mem _ (List.mem_filter.mpr ⟨hr, hnum⟩)

theorem C6_refuel_key_cleaning_witness :
    esNumerico "101" = true ∧
    esNumerico "EX9" = false ∧
    ((⟨digitosAInt "101", 1, 50⟩ : Abast) ∈
      limpiarAbastecimientos [⟨"101", 1, 50⟩, ⟨"EX9", 2, 40⟩]) :=
  ⟨by decide, by decide,
    (C6_refuel_key_cleaning [⟨"101", 1, 50⟩, ⟨"EX9", 2, 40⟩]).2.2
      ⟨"101", 1, 50⟩ (by decide) (by decide)⟩

/-- C7: the baseline normalization strips spaces and turns comma decimal
separators into periods before numeric parsing; every classification row
is kept whatever its baseline parses to, a value like "2,0" parses to 2.0,
and a still-unparsable value merely becomes absent for its own row. -/
theorem C7_baseline_parsing (rows : List ClasifCruda) :
    (procesarClasificacion rows).length = rows.length ∧
    (∀ k : Nat, (procesarClasificacion rows)[k]? = (rows[k]?).map
      fun r : ClasifCruda => (⟨r.equipo3, r.zona, r.categoria,
        normalizarHistorica r.historica⟩ : Clasif)) ∧
    normalizarHistorica "2,0" = some 2 ∧
    normalizarHistorica " 2 , 5 " = some (5 / 2) ∧
    normalizarHistorica "N/A" = none := by
  refine ⟨by simp [procesarClasificacion], ?_, ?_, ?_, rfl⟩
  · intro k
    simp [procesarClasificacion, List.getElem?_map]
  · have h0 : normalizarHistorica "2,0" =
        some (((20 : Nat) : ℚ) / ((10 : Nat) : ℚ)) := rfl
    rw [h0]
    norm_num
  · have h0 : normalizarHistorica " 2 , 5 " =
        some (((25 : Nat) : ℚ) / ((10 : Nat) : ℚ)) := rfl
    rw [h0]
    norm_num

/-- C10: the work-hours side applies astype(int) with no digit filter, so
a single identifier that int() cannot convert fails the whole load with a
ValueError instead of being dropped — asymmetric with the refuel side,
where every purely-numeric identifier does convert and the rest are
silently filtered out beforehand. -/
theorem C10_work_side_strict (rows : List HoraCruda) (r : HoraCruda)
    (hr : r ∈ rows) (hbad : intDeCadena r.codigo = none) :
    limpiarHoras rows = Except.error "ValueError: invalid literal for int" ∧
    (∀ s : String, esNumerico s = true → (intDeCadena s).isSome = true) := by
  constructor
  · have hnall : ¬ (rows.all fun r2 => (intDeCadena r2.codigo).isSome) = true := by
      intro hall
      rw [List.all_eq_true] at hall
      have hsome := hall r hr
      rw [hbad] at hsome
      simp at hsome
    rw [limpiarHoras, if_neg hnall]
  · intro s hn
    rw [esNumerico, Bool.and_eq_true, decide_eq_true_eq] at hn
    obtain ⟨hne, hdig⟩ := hn
    rw [intDeCadena]
    cases cl : s.toList with
    | nil => exact absurd cl hne
    | cons c rest =>
      rw [cl] at hdig
      have hc : c.isDigit = true := by
        rw [List.all_eq_true] at hdig
        exact hdig c (List.mem_cons_self c rest)
      have hcm : c ≠ '-' := by
        intro h
        rw [h] at hc
        exact absurd hc (by decide)
      have hcp : c ≠ '+' := by
        intro h
        rw [h] at hc
        exact absurd hc (by decide)
      simp only [intDeLista, if_neg hcm, if_neg hcp, if_pos hdig,
        Option.isSome_some]

theorem C10_work_side_strict_witness :
    ((⟨"AB", 1, 2⟩ : HoraCruda) ∈ ([⟨"AB", 1, 2⟩] : List HoraCruda) ∧
      intDeCadena "AB" = none) ∧
    (limpiarHoras [⟨"AB", 1, 2⟩] =
        Except.error "ValueError: invalid literal for int" ∧
      (∀ s : String, esNumerico s = true → (intDeCadena s).isSome = true)) :=
  ⟨⟨by decide, by decide⟩,
    C10_work_side_strict [⟨"AB", 1, 2⟩] ⟨"AB", 1, 2⟩ (by decide) (by decide)⟩

end Combustible
